import Mathlib

/-!
Shallow embedding of the lino-go client library: the broadcast pipeline
(`broadcastTransaction` in the broadcast package), the transport layer
(`transport/core.go`), and the range-scan query/decode layer
(`query/post.go`).  External effects (the RPC node, the amino codec, the
goroutine scheduler) are passed in as explicit oracles; machine integers
(uint32 status codes) are modelled as `Nat` with explicit masking where
the source masks.
-/

instance {e a : Type} [DecidableEq e] [DecidableEq a] : DecidableEq (Except e a) := fun x y =>
  match x, y with
  | .error u, .error v =>
    if h : u = v then .isTrue (congrArg Except.error h)
    else .isFalse (fun hh => h (Except.error.inj hh))
  | .ok u, .ok v =>
    if h : u = v then .isTrue (congrArg Except.ok h)
    else .isFalse (fun hh => h (Except.ok.inj hh))
  | .error _, .ok _ => .isFalse (fun hh => Except.noConfusion hh)
  | .ok _, .error _ => .isFalse (fun hh => Except.noConfusion hh)

/-- Go `strings.ToUpper` restricted to the ASCII output of hex encoding. -/
def strToUpper (s : String) : String := String.mk (s.data.map Char.toUpper)

/-- Lowercase hex digit for a nibble, as produced by Go `encoding/hex`. -/
def hexDigitChar (n : Nat) : Char :=
  if n < 10 then Char.ofNat (48 + n) else Char.ofNat (87 + n)

/-- Byte-wise lowercase hex rendering, high nibble first (Go `hex.EncodeToString`). -/
def hexEncodeChars : List Nat → List Char
  | [] => []
  | b :: bs => hexDigitChar (b % 256 / 16) :: hexDigitChar (b % 16) :: hexEncodeChars bs

/-- Go `hex.EncodeToString` on a byte slice modelled as `List Nat`. -/
def hexEncodeStr (bs : List Nat) : String := String.mk (hexEncodeChars bs)

/-- Reserved stale-sequence code, `model.InvalidSeqErrCode = 154`. -/
def InvalidSeqErrCode : Nat := 154

/-- `retrieveCodeFromBlockChainCode` from the broadcast package: mask the
remote code to its low byte (`bcCode & 0xff`). -/
def retrieveCodeFromBlockChainCode (bcCode : Nat) : Nat := bcCode &&& 255

/-- Tendermint `ResultBroadcastTx` (confirm-only / CheckTx-only response). -/
structure ResultBroadcastTx where
  code : Nat
  log : String
  hash : List Nat
deriving DecidableEq

/-- CheckTx part of a full-commit response. -/
structure CheckTxResult where
  code : Nat
  log : String
deriving DecidableEq

/-- DeliverTx part of a full-commit response. -/
structure DeliverTxResult where
  code : Nat
  log : String
deriving DecidableEq

/-- Tendermint `ResultBroadcastTxCommit` (full-commit response). -/
structure ResultBroadcastTxCommit where
  checkTx : CheckTxResult
  deliverTx : DeliverTxResult
  hash : List Nat
deriving DecidableEq

/-- The dynamically typed value delivered by `SignBuildBroadcast` inside
`broadcastTransaction` (Go `interface` value); the two type assertions in
the source are modelled by matching on the constructor. -/
inductive BroadcastRaw where
  | txResult (r : ResultBroadcastTx)
  | commitResult (r : ResultBroadcastTxCommit)
  | otherShape
deriving DecidableEq

/-- The structured errors produced by `broadcastTransaction`
(package `errors` of lino-go), carrying the remote code and log where the
source attaches them via `AddBlockChainCode` / `AddBlockChainLog`. -/
inductive BroadcastError where
  | timeout (cause : String)
  | failedToBroadcast (msg : String)
  | invalidSequenceNumber (bcCode : Nat) (bcLog : String)
  | checkTxFail (bcCode : Nat) (bcLog : String)
  | deliverTxFail (bcCode : Nat) (bcLog : String)
deriving DecidableEq

/-- `model.BroadcastResponse`. -/
structure BroadcastResponse where
  commitHash : String
deriving DecidableEq

/-- The `checkTxOnly` branch of `broadcastTransaction` (part_001 lines
697-714), reached with the goroutine error already known nil.  The second
`res.Code != 0` guard is the source's own dead `DeliverTxFail` return,
kept verbatim. -/
def processCheckTxOnly (r : ResultBroadcastTx) : Except BroadcastError BroadcastResponse :=
  if retrieveCodeFromBlockChainCode r.code = InvalidSeqErrCode then
    .error (.invalidSequenceNumber r.code r.log)
  else if r.code ≠ 0 then
    .error (.checkTxFail r.code r.log)
  else if r.code ≠ 0 then
    .error (.deliverTxFail r.code r.log)
  else
    .ok (BroadcastResponse.mk (strToUpper (hexEncodeStr r.hash)))

/-- The full-commit branch of `broadcastTransaction` (part_001 lines
715-733), reached with the goroutine error already known nil. -/
def processFullCommit (r : ResultBroadcastTxCommit) : Except BroadcastError BroadcastResponse :=
  if retrieveCodeFromBlockChainCode r.checkTx.code = InvalidSeqErrCode then
    .error (.invalidSequenceNumber r.checkTx.code r.checkTx.log)
  else if r.checkTx.code ≠ 0 then
    .error (.checkTxFail r.checkTx.code r.checkTx.log)
  else if r.deliverTx.code ≠ 0 then
    .error (.deliverTxFail r.deliverTx.code r.deliverTx.log)
  else
    .ok (BroadcastResponse.mk (strToUpper (hexEncodeStr r.hash)))

/-- Shallow embedding of `broadcastTransaction` (part_001 lines 674-736).
The sign-encode-submit goroutine and the select race are external effects:
`ctxDoneFirst` says which select case fires first, and `(res, err)` is the
goroutine outcome that would be observed.  Go returns the pair
`(*BroadcastResponse, error)` with exactly one side non-nil, modelled as
`Except`. -/
def broadcastTransaction (ctxDoneFirst : Bool) (ctxErr : String) (res : BroadcastRaw)
    (err : Option String) (checkTxOnly : Bool) : Except BroadcastError BroadcastResponse :=
  if ctxDoneFirst then .error (.timeout ctxErr)
  else
    match err with
    | some e => .error (.failedToBroadcast e)
    | none =>
      if checkTxOnly then
        match res with
        | .txResult r => processCheckTxOnly r
        | _ => .error (.failedToBroadcast "error to parse the broadcast response")
      else
        match res with
        | .commitResult r => processFullCommit r
        | _ => .error (.failedToBroadcast "error to parse the broadcast response")

/-- Recognizer for the `DeliverTxFail` outcome of the pipeline. -/
def isDeliverTxFail : Except BroadcastError BroadcastResponse → Bool
  | .error (.deliverTxFail _ _) => true
  | _ => false

/-- Recognizer for the outcomes the confirm-only branch can actually
produce: sequence conflict, CheckTx failure, response-parse failure, or
success. -/
def confirmOnlyOutcomeShape : Except BroadcastError BroadcastResponse → Bool
  | .error (.invalidSequenceNumber _ _) => true
  | .error (.checkTxFail _ _) => true
  | .error (.failedToBroadcast _) => true
  | .ok _ => true
  | _ => false

/-!  Transport layer, `transport/core.go`. -/

/-- Query response carried by `node.ABCIQuery` (`result.Response`). -/
structure ABCIResponse where
  code : Nat
  value : List Nat
  log : String
deriving DecidableEq

/-- The remote node handle (`rpcclient.Client`): an external system,
modelled by its two response oracles. -/
structure TransportConn where
  abciQuery : String → List Nat → Except String ABCIResponse
  broadcastTxCommit : List Nat → Except String ResultBroadcastTxCommit

/-- `transport.Transport` (core.go lines 13-17). -/
structure Transport where
  chainId : String
  nodeUrl : String
  client : Option TransportConn

/-- `Transport.GetNode` (core.go lines 92-97). -/
def Transport.getNode (t : Transport) : Except String TransportConn :=
  match t.client with
  | none => .error "Must define node URI"
  | some c => .ok c

/-- The error string built by `errors.Errorf("Query failed: (%d) %s", code, log)`. -/
def queryFailedLog (code : Nat) (log : String) : String :=
  "Query failed: (" ++ toString code ++ ") " ++ log

/-- `Transport.Query` (core.go lines 32-48), instrumented with a flag
recording whether the remote node was contacted (`ABCIQuery` issued). -/
def Transport.query (t : Transport) (key : List Nat) (storeName : String) :
    Except String (List Nat) × Bool :=
  match t.getNode with
  | .error e => (.error e, false)
  | .ok node =>
    match node.abciQuery ("/" ++ storeName ++ "/key") key with
    | .error e => (.error e, true)
    | .ok resp =>
      if resp.code ≠ 0 then (.error (queryFailedLog resp.code resp.log), true)
      else (.ok resp.value, true)

/-- The error string built for a non-zero CheckTx code in `Transport.BroadcastTx`. -/
def checkTxFailedLog (code : Nat) (log : String) : String :=
  "CheckTx failed: (" ++ toString code ++ ") " ++ log

/-- The error string built for a non-zero DeliverTx code in `Transport.BroadcastTx`. -/
def deliverTxFailedLog (code : Nat) (log : String) : String :=
  "DeliverTx failed: (" ++ toString code ++ ") " ++ log

/-- `Transport.BroadcastTx` (core.go lines 50-72), instrumented with a
contacted flag.  Go returns both a possibly-nil result pointer and a
possibly-nil error, mirrored by the pair of options. -/
def Transport.broadcastTx (t : Transport) (tx : List Nat) :
    (Option ResultBroadcastTxCommit × Option String) × Bool :=
  match t.getNode with
  | .error e => ((none, some e), false)
  | .ok node =>
    match node.broadcastTxCommit tx with
    | .error e => ((none, some e), true)
    | .ok res =>
      if res.checkTx.code ≠ 0 then
        ((some res, some (checkTxFailedLog res.checkTx.code res.checkTx.log)), true)
      else if res.deliverTx.code ≠ 0 then
        ((some res, some (deliverTxFailedLog res.deliverTx.code res.deliverTx.log)), true)
      else ((some res, none), true)

/-!  Query decode layer, `query/post.go`. -/

/-- One id-to-url link of a post (`model.IDToURLMapping`). -/
structure IDToURLMapping where
  identifier : String
  url : String
deriving DecidableEq

/-- `model.PostInfo` (the fields read by query/post.go). -/
structure PostInfo where
  postID : String
  title : String
  content : String
  author : String
  parentAuthor : String
  parentPostID : String
  sourceAuthor : String
  sourcePostID : String
  links : List IDToURLMapping
deriving DecidableEq

/-- `model.PostMeta` (the fields read by query/post.go). -/
structure PostMeta where
  createdAt : Int
  lastUpdatedAt : Int
  lastActivityAt : Int
  allowReplies : Bool
  isDeleted : Bool
  totalDonateCount : Int
  totalReportCoinDay : String
  totalUpvoteCoinDay : String
  totalViewCount : Int
  totalReward : String
  redistributionSplitRate : String
deriving DecidableEq

/-- `model.Post`, the aggregate view assembled by `GetUserAllPosts`. -/
structure Post where
  postID : String
  title : String
  content : String
  author : String
  parentAuthor : String
  parentPostID : String
  sourceAuthor : String
  sourcePostID : String
  links : List IDToURLMapping
  createdAt : Int
  lastUpdatedAt : Int
  lastActivityAt : Int
  allowReplies : Bool
  isDeleted : Bool
  totalDonateCount : Int
  totalReportCoinDay : String
  totalUpvoteCoinDay : String
  totalViewCount : Int
  totalReward : String
  redistributionSplitRate : String
deriving DecidableEq

/-- `model.Comment`. -/
structure Comment where
  author : String
  postID : String
  created : Int
deriving DecidableEq

/-- One raw key-value pair returned by a subspace (prefix range) query. -/
structure KVPair where
  key : String
  value : List Nat
deriving DecidableEq

/-- The effectful context of the query layer: the transport round trips
and the amino codec (`transport.Cdc.UnmarshalJSON`, an external library)
as oracles. -/
structure QueryEnv where
  querySubspace : String → String → Except String (List KVPair)
  query : String → String → Except String (List Nat)
  decodePostInfo : List Nat → Except String PostInfo
  decodePostMeta : List Nat → Except String PostMeta
  decodeComment : List Nat → Except String Comment

/-- Modelled from the spec: the key-construction helpers (`getPermlink`
and friends, in a keys file not under src/).  Per the spec a permlink is
the composite identifier author#postID. -/
def getPermlink (author postID : String) : String := author ++ "#" ++ postID

/-- Modelled from the spec: the permlink separator byte sequence
(`PermLinkSeparator`, not under src/). -/
def PermLinkSeparator : String := "#"

/-- Modelled from the spec: the post store name (`PostKVStoreKey`, not under src/). -/
def PostKVStoreKey : String := "post"

/-- Modelled from the spec: point key for a post-info record. -/
def getPostInfoKey (permlink : String) : String := "info/" ++ permlink

/-- Modelled from the spec: point key for a post-meta record. -/
def getPostMetaKey (permlink : String) : String := "meta/" ++ permlink

/-- Modelled from the spec: prefix-scan key for a user's post-info
records (`append(getUserPostInfoPrefix(username), PermLinkSeparator...)`). -/
def getUserPostInfoPrefixKey (username : String) : String :=
  "info/" ++ username ++ PermLinkSeparator

/-- Modelled from the spec: prefix-scan key for a post's comments. -/
def getPostCommentPrefixKey (permlink : String) : String :=
  "comment/" ++ permlink ++ "/"

/-- Modelled from the spec: recover the logical identifier of a
range-scan entry by stripping everything up to the store separator
(`getSubstringAfterSubstore`, not under src/). -/
def getSubstringAfterSubstore (key : String) : String :=
  match (key.splitOn "/").reverse with
  | [] => key
  | s :: _ => s

/-- Modelled from the spec: recover the trailing identifier segment of a
sub-entity key (`getSubstringAfterKeySeparator`, not under src/). -/
def getSubstringAfterKeySeparator (key : String) : String :=
  match (key.splitOn "/").reverse with
  | [] => key
  | s :: _ => s

/-- `Query.GetPostMeta` (query/post.go lines 24-35): point query for the
metadata record, then decode. -/
def getPostMeta (env : QueryEnv) (author postID : String) : Except String PostMeta :=
  match env.query (getPostMetaKey (getPermlink author postID)) PostKVStoreKey with
  | .error e => .error e
  | .ok resp => env.decodePostMeta resp

/-- The field-by-field assembly of `model.Post` from post info and post
meta in `GetUserAllPosts` (query/post.go lines 118-139). -/
def mkPost (pinfo : PostInfo) (pm : PostMeta) : Post :=
  { postID := pinfo.postID
    title := pinfo.title
    content := pinfo.content
    author := pinfo.author
    parentAuthor := pinfo.parentAuthor
    parentPostID := pinfo.parentPostID
    sourceAuthor := pinfo.sourceAuthor
    sourcePostID := pinfo.sourcePostID
    links := pinfo.links
    createdAt := pm.createdAt
    lastUpdatedAt := pm.lastUpdatedAt
    lastActivityAt := pm.lastActivityAt
    allowReplies := pm.allowReplies
    isDeleted := pm.isDeleted
    totalDonateCount := pm.totalDonateCount
    totalReportCoinDay := pm.totalReportCoinDay
    totalUpvoteCoinDay := pm.totalUpvoteCoinDay
    totalViewCount := pm.totalViewCount
    totalReward := pm.totalReward
    redistributionSplitRate := pm.redistributionSplitRate }

/-- The entry loop of `GetUserAllPosts` (query/post.go lines 107-141):
decode each value, do the secondary meta lookup, abort on the first
failure.  The Go map keyed by stripped key is modelled as an association
list built in iteration order. -/
def getUserAllPostsLoop (env : QueryEnv) :
    List KVPair → List (String × Post) → Except String (List (String × Post))
  | [], acc => .ok acc
  | kv :: rest, acc =>
    match env.decodePostInfo kv.value with
    | .error e => .error e
    | .ok pinfo =>
      match getPostMeta env pinfo.author pinfo.postID with
      | .error e => .error e
      | .ok pm =>
        getUserAllPostsLoop env rest (acc ++ [(getSubstringAfterSubstore kv.key, mkPost pinfo pm)])

/-- `Query.GetUserAllPosts` (query/post.go lines 100-144). -/
def getUserAllPosts (env : QueryEnv) (username : String) :
    Except String (List (String × Post)) :=
  match env.querySubspace (getUserPostInfoPrefixKey username) PostKVStoreKey with
  | .error e => .error e
  | .ok kvs => getUserAllPostsLoop env kvs []

/-- The entry loop of `GetPostAllComments` (query/post.go lines 155-162). -/
def getPostAllCommentsLoop (env : QueryEnv) :
    List KVPair → List (String × Comment) → Except String (List (String × Comment))
  | [], acc => .ok acc
  | kv :: rest, acc =>
    match env.decodeComment kv.value with
    | .error e => .error e
    | .ok c =>
      getPostAllCommentsLoop env rest (acc ++ [(getSubstringAfterKeySeparator kv.key, c)])

/-- `Query.GetPostAllComments` (query/post.go lines 147-165). -/
def getPostAllComments (env : QueryEnv) (author postID : String) :
    Except String (List (String × Comment)) :=
  match env.querySubspace (getPostCommentPrefixKey (getPermlink author postID)) PostKVStoreKey with
  | .error e => .error e
  | .ok kvs => getPostAllCommentsLoop env kvs []

/-- Success of one range-scan entry of `GetUserAllPosts`: the value
decodes and the secondary metadata lookup succeeds. -/
def postEntryOk (env : QueryEnv) (kv : KVPair) : Prop :=
  ∃ pinfo pm, env.decodePostInfo kv.value = .ok pinfo ∧
    getPostMeta env pinfo.author pinfo.postID = .ok pm

/-- Failure of one range-scan entry of `GetUserAllPosts` with error `e`:
either the value fails to decode, or it decodes and the secondary
metadata lookup fails. -/
def postEntryErr (env : QueryEnv) (kv : KVPair) (e : String) : Prop :=
  env.decodePostInfo kv.value = .error e ∨
    ∃ pinfo, env.decodePostInfo kv.value = .ok pinfo ∧
      getPostMeta env pinfo.author pinfo.postID = .error e

/-!  Key parsing and per-message wrappers, broadcast package. -/

/-- ASCII hex digit test, as in Go `encoding/hex`. -/
def isHexDigitChar (c : Char) : Bool :=
  (48 ≤ c.toNat && c.toNat ≤ 57) || (97 ≤ c.toNat && c.toNat ≤ 102) ||
    (65 ≤ c.toNat && c.toNat ≤ 70)

/-- Numeric value of an ASCII hex digit. -/
def hexDigitVal (c : Char) : Nat :=
  if 48 ≤ c.toNat && c.toNat ≤ 57 then c.toNat - 48
  else if 97 ≤ c.toNat && c.toNat ≤ 102 then c.toNat - 87
  else c.toNat - 55

/-- Hex decoding of a character list: fails on an odd-length input or a
non-hex character. -/
def hexDecodeChars : List Char → Option (List Nat)
  | [] => some []
  | [_] => none
  | c1 :: c2 :: rest =>
    if isHexDigitChar c1 && isHexDigitChar c2 then
      (hexDecodeChars rest).map (fun bs => (16 * hexDigitVal c1 + hexDigitVal c2) :: bs)
    else none

/-- Go `hex.DecodeString`. -/
def hexDecode (s : String) : Option (List Nat) := hexDecodeChars s.data

/-- Modelled from the spec: `transport.GetPubKeyFromHex` is not under
src/; per the spec a supplied hex-encoded public key is parsed into a
cryptographic key and the call fails when the hex cannot be parsed. -/
def GetPubKeyFromHex (s : String) : Except String (List Nat) :=
  match hexDecode s with
  | none => .error ("encoding/hex: invalid hex string: " ++ s)
  | some bs => .ok bs

/-- `model.RegisterMsg` as composed by `Broadcast.Register`. -/
structure RegisterMsg where
  referrer : String
  registerFee : String
  newUser : String
  newResetPubKey : List Nat
  newTransactionPubKey : List Nat
  newAppPubKey : List Nat
deriving DecidableEq

/-- `model.RevokePermissionMsg` as composed by `Broadcast.RevokePermission`. -/
structure RevokePermissionMsg where
  username : String
  pubKey : List Nat
deriving DecidableEq

/-- `Broadcast.Register` (part_001 lines 35-59), instrumented with a flag
recording whether the message was handed to the sign-and-broadcast
pipeline; the pipeline itself is an oracle. -/
def registerRun (referrer registerFee username resetHex txHex appHex : String)
    (pipeline : RegisterMsg → Except String BroadcastResponse) :
    Except String BroadcastResponse × Bool :=
  match GetPubKeyFromHex resetHex with
  | .error e => (.error ("Register: failed to get Reset pub key: " ++ e), false)
  | .ok resetPubKey =>
    match GetPubKeyFromHex txHex with
    | .error e => (.error ("Register: failed to get Tx pub key: " ++ e), false)
    | .ok txPubKey =>
      match GetPubKeyFromHex appHex with
      | .error e => (.error ("Register: failed to get App pub key: " ++ e), false)
      | .ok appPubKey =>
        (pipeline (RegisterMsg.mk referrer registerFee username resetPubKey txPubKey appPubKey),
          true)

/-- `Broadcast.RevokePermission` (part_001 lines 479-491), instrumented
the same way; the source reuses the "Register: ..." error text. -/
def revokePermissionRun (username pubKeyHex : String)
    (pipeline : RevokePermissionMsg → Except String BroadcastResponse) :
    Except String BroadcastResponse × Bool :=
  match GetPubKeyFromHex pubKeyHex with
  | .error e => (.error ("Register: failed to get pub key: " ++ e), false)
  | .ok pubKey => (pipeline (RevokePermissionMsg.mk username pubKey), true)

/-!  CreatePost message construction and signable-payload encoding. -/

/-- `model.CreatePostMsg` as composed by `Broadcast.CreatePost`. -/
structure CreatePostMsg where
  author : String
  postID : String
  title : String
  content : String
  parentAuthor : String
  parentPostID : String
  sourceAuthor : String
  sourcePostID : String
  links : List IDToURLMapping
  redistributionSplitRate : String
deriving DecidableEq

/-- The links-slice construction in `Broadcast.CreatePost` (part_001
lines 153-160): the caller-supplied Go map is iterated with range, whose
order Go does not specify; `entries` lists the map's pairs in one
possible iteration order. -/
def linksFromMap (entries : List (String × String)) : List IDToURLMapping :=
  match entries with
  | [] => []
  | es => es.map (fun kv => IDToURLMapping.mk kv.1 kv.2)

/-- Rendering of the links list inside the signable payload, element by
element in list order. -/
def encodeLinks : List IDToURLMapping → String
  | [] => ""
  | l :: ls => "(" ++ l.identifier ++ "," ++ l.url ++ ")" ++ encodeLinks ls

/-- Modelled from the spec: `transport.EncodeSignMsg` is not under src/;
per the spec it deterministically encodes (message, chainId,
sequenceNumber) into a canonical byte sequence, fields in a fixed order
and list elements in list order. -/
def encodeCreatePostSignMsg (msg : CreatePostMsg) (chainId : String) (seq : Int) : String :=
  chainId ++ "|" ++ toString seq ++ "|" ++ msg.author ++ "|" ++ msg.postID ++ "|" ++
    msg.title ++ "|" ++ msg.content ++ "|" ++ msg.parentAuthor ++ "|" ++ msg.parentPostID ++
    "|" ++ msg.sourceAuthor ++ "|" ++ msg.sourcePostID ++ "|" ++ encodeLinks msg.links ++
    "|" ++ msg.redistributionSplitRate

/-- The signable bytes produced for one `CreatePost` call whose links map
was iterated in the order `linkEntries`. -/
def createPostSignBytes (author postID title content parentAuthor parentPostID
    sourceAuthor sourcePostID redistributionSplitRate : String)
    (linkEntries : List (String × String)) (chainId : String) (seq : Int) : String :=
  encodeCreatePostSignMsg
    (CreatePostMsg.mk author postID title content parentAuthor parentPostID
      sourceAuthor sourcePostID (linksFromMap linkEntries) redistributionSplitRate)
    chainId seq

/-!  Concrete fixtures used by the witnesses. -/

/-- A query environment whose decoders always fail; used to exercise the
fail-fast aggregation. -/
def envFailingDecode : QueryEnv :=
  { querySubspace := fun _ _ => .ok [KVPair.mk "info/alice#p1" [1]]
    query := fun _ _ => .ok []
    decodePostInfo := fun _ => .error "decode post info failed"
    decodePostMeta := fun _ => .error "decode meta failed"
    decodeComment := fun _ => .error "decode comment failed" }

/-- A connected node whose query answers with code 0 and empty bytes. -/
def connCodeZero : TransportConn :=
  { abciQuery := fun _ _ => .ok (ABCIResponse.mk 0 [] "")
    broadcastTxCommit := fun _ => .error "unused" }

/-- A connected node whose query answers with code 7. -/
def connCodeSeven : TransportConn :=
  { abciQuery := fun _ _ => .ok (ABCIResponse.mk 7 [9] "bad key")
    broadcastTxCommit := fun _ => .error "unused" }

/-- Transport connected to `connCodeZero`. -/
def transportZero : Transport := Transport.mk "chain" "url" (some connCodeZero)

/-- Transport connected to `connCodeSeven`. -/
def transportSeven : Transport := Transport.mk "chain" "url" (some connCodeSeven)

/-- Transport with no node connection configured. -/
def transportNoConn : Transport := Transport.mk "chain" "" none

/-- A trivial broadcast pipeline oracle for the register wrapper. -/
def pipelineRegisterTrivial : RegisterMsg → Except String BroadcastResponse :=
  fun _ => .ok (BroadcastResponse.mk "")

/-- A trivial broadcast pipeline oracle for the revoke-permission wrapper. -/
def pipelineRevokeTrivial : RevokePermissionMsg → Except String BroadcastResponse :=
  fun _ => .ok (BroadcastResponse.mk "")

/-!  Theorems. -/

theorem processCheckTxOnly_shape (r : ResultBroadcastTx) :
    isDeliverTxFail (processCheckTxOnly r) = false ∧
      confirmOnlyOutcomeShape (processCheckTxOnly r) = true := by
  unfold processCheckTxOnly
  split_ifs <;> exact ⟨rfl, rfl⟩

/-- C1 counterexample: a full-commit response whose pending-pool code is the
non-zero value 154 is classified as SequenceConflict (InvalidSequenceNumber),
not as MempoolRejected (CheckTxFail), so the claimed classification that every
non-zero pending-pool code fails as MempoolRejected is false. -/
theorem fullCommit_code154_not_mempool :
    broadcastTransaction false ""
        (.commitResult (ResultBroadcastTxCommit.mk (CheckTxResult.mk 154 "stale")
          (DeliverTxResult.mk 0 "") [])) none false =
      .error (.invalidSequenceNumber 154 "stale") ∧
    broadcastTransaction false ""
        (.commitResult (ResultBroadcastTxCommit.mk (CheckTxResult.mk 154 "stale")
          (DeliverTxResult.mk 0 "") [])) none false ≠
      .error (.checkTxFail 154 "stale") := by
  exact ⟨by decide, by decide⟩

/-- C1 (amended): for every full-commit response whose pending-pool code does
not mask to the reserved stale-sequence code, classification applies in order:
a non-zero pending-pool code fails as MempoolRejected (CheckTxFail) carrying
that code and log; else a non-zero execution code fails as ExecutionRejected
(DeliverTxFail) carrying that code and log; else the call succeeds as
Committed with the commit hash rendered as an uppercase hex string. -/
theorem fullCommit_classification_order (ctxErr : String) (r : ResultBroadcastTxCommit)
    (h : retrieveCodeFromBlockChainCode r.checkTx.code ≠ InvalidSeqErrCode) :
    (r.checkTx.code ≠ 0 →
      broadcastTransaction false ctxErr (.commitResult r) none false =
        .error (.checkTxFail r.checkTx.code r.checkTx.log)) ∧
    (r.checkTx.code = 0 → r.deliverTx.code ≠ 0 →
      broadcastTransaction false ctxErr (.commitResult r) none false =
        .error (.deliverTxFail r.deliverTx.code r.deliverTx.log)) ∧
    (r.checkTx.code = 0 → r.deliverTx.code = 0 →
      broadcastTransaction false ctxErr (.commitResult r) none false =
        .ok (BroadcastResponse.mk (strToUpper (hexEncodeStr r.hash)))) := by
  have h0 : retrieveCodeFromBlockChainCode 0 ≠ InvalidSeqErrCode := by decide
  refine ⟨fun h1 => ?_, fun h1 h2 => ?_, fun h1 h2 => ?_⟩
  · simp [broadcastTransaction, processFullCommit, h, h1]
  · simp [broadcastTransaction, processFullCommit, h0, h1, h2]
  · simp [broadcastTransaction, processFullCommit, h0, h1, h2]

/-- C1 witness: pending-pool code 0 with execution code 3 yields
ExecutionRejected carrying code 3, and pending-pool code 0 with execution
code 0 and hash bytes 0xAB12 yields Committed with commit hash AB12. -/
theorem fullCommit_classification_order_witness :
    broadcastTransaction false ""
        (.commitResult (ResultBroadcastTxCommit.mk (CheckTxResult.mk 0 "accepted")
          (DeliverTxResult.mk 3 "exec rejected") [171, 18])) none false =
      .error (.deliverTxFail 3 "exec rejected") ∧
    broadcastTransaction false ""
        (.commitResult (ResultBroadcastTxCommit.mk (CheckTxResult.mk 0 "accepted")
          (DeliverTxResult.mk 0 "") [171, 18])) none false =
      .ok (BroadcastResponse.mk "AB12") :=
  ⟨(fullCommit_classification_order ""
      (ResultBroadcastTxCommit.mk (CheckTxResult.mk 0 "accepted")
        (DeliverTxResult.mk 3 "exec rejected") [171, 18]) (by decide)).2.1 rfl (by decide),
   (fullCommit_classification_order ""
      (ResultBroadcastTxCommit.mk (CheckTxResult.mk 0 "accepted")
        (DeliverTxResult.mk 0 "") [171, 18]) (by decide)).2.2 rfl rfl⟩

/-- C2: in both broadcast modes, a remote status code whose low byte
(code masked with 0xff) equals the reserved stale-sequence code 154 is
classified as SequenceConflict (InvalidSequenceNumber) carrying the original
unmasked code and its log, regardless of the higher-order bits, before the
non-zero pending-pool-code check can fire. -/
theorem sequence_conflict_masked_priority (code : Nat) (log ctxErr : String)
    (hash : List Nat) (d : DeliverTxResult)
    (h : retrieveCodeFromBlockChainCode code = InvalidSeqErrCode) :
    broadcastTransaction false ctxErr (.txResult (ResultBroadcastTx.mk code log hash)) none true =
      .error (.invalidSequenceNumber code log) ∧
    broadcastTransaction false ctxErr
        (.commitResult (ResultBroadcastTxCommit.mk (CheckTxResult.mk code log) d hash)) none false =
      .error (.invalidSequenceNumber code log) := by
  constructor <;> simp [broadcastTransaction, processCheckTxOnly, processFullCommit, h]

/-- C2 witness: remote code 666 (low byte 154) is classified as
SequenceConflict in both modes, carrying the unmasked code 666. -/
theorem sequence_conflict_masked_priority_witness :
    broadcastTransaction false "" (.txResult (ResultBroadcastTx.mk 666 "stale seq" [7])) none true =
      .error (.invalidSequenceNumber 666 "stale seq") ∧
    broadcastTransaction false ""
        (.commitResult (ResultBroadcastTxCommit.mk (CheckTxResult.mk 666 "stale seq")
          (DeliverTxResult.mk 0 "") [7])) none false =
      .error (.invalidSequenceNumber 666 "stale seq") :=
  sequence_conflict_masked_priority 666 "stale seq" "" [7] (DeliverTxResult.mk 0 "") (by decide)

/-- C3 counterexample: a confirm-only response with the non-zero
pending-pool code 154 is classified as SequenceConflict
(InvalidSequenceNumber), not as a CheckTx failure, so the claimed behavior
that every non-zero pending-pool code yields a CheckTx failure is false. -/
theorem confirmOnly_code154_not_checkTxFail :
    broadcastTransaction false "" (.txResult (ResultBroadcastTx.mk 154 "stale" [])) none true =
      .error (.invalidSequenceNumber 154 "stale") ∧
    broadcastTransaction false "" (.txResult (ResultBroadcastTx.mk 154 "stale" [])) none true ≠
      .error (.checkTxFail 154 "stale") := by
  exact ⟨by decide, by decide⟩

/-- C3 (amended): for every confirm-only response whose pending-pool code
does not mask to the reserved stale-sequence code, only the pending-pool
code is consulted: code 0 succeeds with the hash hex-encoded then
uppercased, and a non-zero code fails as CheckTxFail carrying that code and
log. -/
theorem confirmOnly_classification (code : Nat) (log ctxErr : String) (hash : List Nat)
    (h : retrieveCodeFromBlockChainCode code ≠ InvalidSeqErrCode) :
    (code = 0 →
      broadcastTransaction false ctxErr (.txResult (ResultBroadcastTx.mk code log hash)) none true =
        .ok (BroadcastResponse.mk (strToUpper (hexEncodeStr hash)))) ∧
    (code ≠ 0 →
      broadcastTransaction false ctxErr (.txResult (ResultBroadcastTx.mk code log hash)) none true =
        .error (.checkTxFail code log)) := by
  have h0 : retrieveCodeFromBlockChainCode 0 ≠ InvalidSeqErrCode := by decide
  refine ⟨fun h1 => ?_, fun h1 => ?_⟩
  · simp [broadcastTransaction, processCheckTxOnly, h0, h1]
  · simp [broadcastTransaction, processCheckTxOnly, h, h1]

/-- C3 witness: pending-pool code 0 with hash bytes 0xAB12 yields success
with commit hash AB12, and pending-pool code 5 yields CheckTxFail carrying
code 5 and its log. -/
theorem confirmOnly_classification_witness :
    broadcastTransaction false "" (.txResult (ResultBroadcastTx.mk 0 "" [171, 18])) none true =
      .ok (BroadcastResponse.mk "AB12") ∧
    broadcastTransaction false "" (.txResult (ResultBroadcastTx.mk 5 "rejected" [])) none true =
      .error (.checkTxFail 5 "rejected") :=
  ⟨(confirmOnly_classification 0 "" "" [171, 18] (by decide)).1 rfl,
   (confirmOnly_classification 5 "rejected" "" [] (by decide)).2 (by decide)⟩

/-- C4: whenever the caller-supplied cancellation signal wins the select
race against the sign-encode-submit goroutine, the call returns a Timeout
error wrapping the cancellation cause and no broadcast response, whatever
outcome the abandoned goroutine would have produced and in either mode. -/
theorem broadcast_cancellation_timeout :
    ∀ (ctxErr : String) (res : BroadcastRaw) (err : Option String) (checkTxOnly : Bool),
      broadcastTransaction true ctxErr res err checkTxOnly = .error (.timeout ctxErr) := by
  intro _ _ _ _
  rfl

theorem getUserAllPostsLoop_fail_fast (env : QueryEnv) (kv : KVPair) (rest : List KVPair)
    (e : String) :
    ∀ (pre : List KVPair), (∀ x ∈ pre, postEntryOk env x) → postEntryErr env kv e →
      ∀ acc, getUserAllPostsLoop env (pre ++ kv :: rest) acc = .error e := by
  intro pre
  induction pre with
  | nil =>
    intro _ herr acc
    rcases herr with h | ⟨pinfo, h1, h2⟩
    · simp [getUserAllPostsLoop, h]
    · simp [getUserAllPostsLoop, h1, h2]
  | cons x xs ih =>
    intro hok herr acc
    obtain ⟨pinfo, pm, h1, h2⟩ := hok x (by simp)
    simp only [List.cons_append, getUserAllPostsLoop, h1, h2]
    exact ih (fun y hy => hok y (by simp [hy])) herr _

theorem getPostAllCommentsLoop_fail_fast (env : QueryEnv) (kv : KVPair) (rest : List KVPair)
    (e : String) :
    ∀ (pre : List KVPair), (∀ x ∈ pre, ∃ c, env.decodeComment x.value = .ok c) →
      env.decodeComment kv.value = .error e →
      ∀ acc, getPostAllCommentsLoop env (pre ++ kv :: rest) acc = .error e := by
  intro pre
  induction pre with
  | nil =>
    intro _ herr acc
    simp [getPostAllCommentsLoop, herr]
  | cons x xs ih =>
    intro hok herr acc
    obtain ⟨c, h1⟩ := hok x (by simp)
    simp only [List.cons_append, getPostAllCommentsLoop, h1]
    exact ih (fun y hy => hok y (by simp [hy])) herr _

/-- C5: for the range-scan aggregates, if one returned entry fails to
decode — or, for the aggregate post view, its secondary point lookup for
post metadata fails — while every earlier entry succeeds, the whole
operation returns exactly that error and no map of the entries that did
decode. -/
theorem aggregate_query_fail_fast (env : QueryEnv) (username author postID : String)
    (pre rest : List KVPair) (kv : KVPair) (e : String) :
    (env.querySubspace (getUserPostInfoPrefixKey username) PostKVStoreKey =
        .ok (pre ++ kv :: rest) →
      (∀ x ∈ pre, postEntryOk env x) → postEntryErr env kv e →
      getUserAllPosts env username = .error e) ∧
    (env.querySubspace (getPostCommentPrefixKey (getPermlink author postID)) PostKVStoreKey =
        .ok (pre ++ kv :: rest) →
      (∀ x ∈ pre, ∃ c, env.decodeComment x.value = .ok c) →
      env.decodeComment kv.value = .error e →
      getPostAllComments env author postID = .error e) := by
  constructor
  · intro hq hok herr
    unfold getUserAllPosts
    rw [hq]
    exact getUserAllPostsLoop_fail_fast env kv rest e pre hok herr []
  · intro hq hok herr
    unfold getPostAllComments
    rw [hq]
    exact getPostAllCommentsLoop_fail_fast env kv rest e pre hok herr []

/-- C5 witness: with a one-entry scan result and failing decoders, both
aggregates return the decode error and no map. -/
theorem aggregate_query_fail_fast_witness :
    getUserAllPosts envFailingDecode "alice" = .error "decode post info failed" ∧
    getPostAllComments envFailingDecode "alice" "p1" = .error "decode comment failed" := by
  constructor
  · exact (aggregate_query_fail_fast envFailingDecode "alice" "alice" "p1" [] []
      (KVPair.mk "info/alice#p1" [1]) "decode post info failed").1 rfl (by simp) (Or.inl rfl)
  · exact (aggregate_query_fail_fast envFailingDecode "alice" "alice" "p1" [] []
      (KVPair.mk "info/alice#p1" [1]) "decode comment failed").2 rfl (by simp) rfl

/-- C6: for a point query against a connected node, a response code of 0
returns the raw value bytes (even when empty), and any non-zero code
returns the query-failed error carrying exactly that remote code and its
log text, with no bytes. -/
theorem point_query_code_semantics (t : Transport) (conn : TransportConn) (key : List Nat)
    (store : String) (resp : ABCIResponse) (hc : t.client = some conn)
    (hq : conn.abciQuery ("/" ++ store ++ "/key") key = .ok resp) :
    (resp.code = 0 → Transport.query t key store = (.ok resp.value, true)) ∧
    (resp.code ≠ 0 →
      Transport.query t key store = (.error (queryFailedLog resp.code resp.log), true)) := by
  constructor <;> intro h <;> simp [Transport.query, Transport.getNode, hc, hq, h]

/-- C6 witness: code 0 with empty bytes succeeds with the empty value;
code 7 fails with the error text carrying code 7 and the remote log. -/
theorem point_query_code_semantics_witness :
    Transport.query transportZero [1] "post" = (.ok [], true) ∧
    Transport.query transportSeven [1] "post" = (.error (queryFailedLog 7 "bad key"), true) ∧
    queryFailedLog 7 "bad key" = "Query failed: (7) bad key" := by
  refine ⟨?_, ?_, by decide⟩
  · exact (point_query_code_semantics transportZero connCodeZero [1] "post"
      (ABCIResponse.mk 0 [] "") rfl rfl).1 rfl
  · exact (point_query_code_semantics transportSeven connCodeSeven [1] "post"
      (ABCIResponse.mk 7 [9] "bad key") rfl rfl).2 (by decide)

/-- C7: on a transport with no node connection configured, both the point
query and the broadcast fail with the not-connected error and the remote
node is never contacted (the contact flag stays false). -/
theorem not_connected_fails_before_io (t : Transport) (key tx : List Nat) (store : String)
    (h : t.client = none) :
    Transport.query t key store = (.error "Must define node URI", false) ∧
    Transport.broadcastTx t tx = ((none, some "Must define node URI"), false) := by
  constructor <;> simp [Transport.query, Transport.broadcastTx, Transport.getNode, h]

/-- C7 witness: the concrete unconnected transport fails both operations
without contacting the node. -/
theorem not_connected_fails_before_io_witness :
    Transport.query transportNoConn [1] "post" = (.error "Must define node URI", false) ∧
    Transport.broadcastTx transportNoConn [2] = ((none, some "Must define node URI"), false) :=
  not_connected_fails_before_io transportNoConn [1] [2] "post" rfl

/-- C8: in the wrappers that take hex-encoded public keys (Register,
RevokePermission), if any supplied hex key fails to parse, the call fails
with a key-decode error wrapping the underlying parse error and the
message is never handed to the sign-and-broadcast pipeline (the pipeline
flag stays false). -/
theorem key_decode_failure_no_broadcast (referrer registerFee username resetHex txHex appHex
    uname pubKeyHex : String) (pl : RegisterMsg → Except String BroadcastResponse)
    (pl2 : RevokePermissionMsg → Except String BroadcastResponse) (e : String) :
    (GetPubKeyFromHex resetHex = .error e →
      registerRun referrer registerFee username resetHex txHex appHex pl =
        (.error ("Register: failed to get Reset pub key: " ++ e), false)) ∧
    (∀ k1, GetPubKeyFromHex resetHex = .ok k1 → GetPubKeyFromHex txHex = .error e →
      registerRun referrer registerFee username resetHex txHex appHex pl =
        (.error ("Register: failed to get Tx pub key: " ++ e), false)) ∧
    (∀ k1 k2, GetPubKeyFromHex resetHex = .ok k1 → GetPubKeyFromHex txHex = .ok k2 →
      GetPubKeyFromHex appHex = .error e →
      registerRun referrer registerFee username resetHex txHex appHex pl =
        (.error ("Register: failed to get App pub key: " ++ e), false)) ∧
    (GetPubKeyFromHex pubKeyHex = .error e →
      revokePermissionRun uname pubKeyHex pl2 =
        (.error ("Register: failed to get pub key: " ++ e), false)) := by
  refine ⟨fun h1 => ?_, fun k1 h1 h2 => ?_, fun k1 k2 h1 h2 h3 => ?_, fun h1 => ?_⟩
  · simp [registerRun, h1]
  · simp [registerRun, h1, h2]
  · simp [registerRun, h1, h2, h3]
  · simp [revokePermissionRun, h1]

/-- C8 witness: the unparsable hex key zz aborts Register and
RevokePermission with the key-decode error wrapping the hex parse error,
never reaching the pipeline. -/
theorem key_decode_failure_no_broadcast_witness :
    registerRun "ref" "100" "newuser" "zz" "00" "00" pipelineRegisterTrivial =
      (.error ("Register: failed to get Reset pub key: " ++
        "encoding/hex: invalid hex string: zz"), false) ∧
    revokePermissionRun "user" "zz" pipelineRevokeTrivial =
      (.error ("Register: failed to get pub key: " ++
        "encoding/hex: invalid hex string: zz"), false) := by
  have h := key_decode_failure_no_broadcast "ref" "100" "newuser" "zz" "00" "00" "user" "zz"
    pipelineRegisterTrivial pipelineRevokeTrivial "encoding/hex: invalid hex string: zz"
  exact ⟨h.1 rfl, h.2.2.2 rfl⟩

/-- C9: two iteration orders of the same caller-supplied links map (the
two lists are permutations of each other, hence the same Go map) make
CreatePost build differently ordered links slices, and the signable
payload encodings of the two calls differ — the encoding of the same
logical input is not deterministic, contradicting the claim. -/
theorem createPost_signable_encoding_map_order :
    List.Perm [("a", "1"), ("b", "2")] [("b", "2"), ("a", "1")] ∧
    createPostSignBytes "alice" "p1" "title" "content" "" "" "" "" "0"
        [("a", "1"), ("b", "2")] "lino-chain" 1 ≠
      createPostSignBytes "alice" "p1" "title" "content" "" "" "" "" "0"
        [("b", "2"), ("a", "1")] "lino-chain" 1 := by
  exact ⟨by decide, by decide⟩

/-- C10: in the confirm-only branch of broadcastTransaction the
DeliverTxFail return is unreachable — its guard repeats the condition the
CheckTxFail return just handled — so every confirm-only call that was not
cancelled ends as sequence conflict, CheckTx failure, response-parse
failure, or success, never as an execution rejection. -/
theorem confirmOnly_deliverTxFail_unreachable :
    ∀ (ctxErr : String) (res : BroadcastRaw) (err : Option String),
      isDeliverTxFail (broadcastTransaction false ctxErr res err true) = false ∧
      confirmOnlyOutcomeShape (broadcastTransaction false ctxErr res err true) = true := by
  intro ctxErr res err
  cases err with
  | some e => exact ⟨rfl, rfl⟩
  | none =>
    cases res with
    | txResult r =>
      have h := processCheckTxOnly_shape r
      simpa [broadcastTransaction] using h
    | commitResult r => exact ⟨rfl, rfl⟩
    | otherShape => exact ⟨rfl, rfl⟩
